import Mathlib

/-!
Verification of the quickfix-renderer crate (src/quickfix-renderer/src/lib.rs):
a shallow embedding of the backend-selection policy and of the asynchronous
renderer initialisation, followed by theorems settling the specification's
claims about them.

The three Cargo features of the crate (named "webgpu", "webgl2" and "cpu"
in the source) are compile-time booleans; the embedding passes them as
explicit Bool parameters.  The platform's adapter negotiation
(wgpu's Instance.request_adapter) is external to the crate, so it is
modelled as an explicit Host value: a function from the constructed
instance and the request options to an optional adapter.
-/

namespace QuickfixRenderer

/-- Embedding of the wgpu Backends bitflags set, one Bool per flag that
the claims mention.  The source only ever touches the GL and
BROWSER_WEBGPU flags; the native flags are carried so that their absence
can be stated. -/
structure Backends where
  vulkan : Bool
  gl : Bool
  metal : Bool
  dx12 : Bool
  browserWebgpu : Bool
deriving DecidableEq, Repr

/-- Embedding of wgpu Backends.empty: no flag set. -/
def Backends.emptySet : Backends :=
  { vulkan := false, gl := false, metal := false, dx12 := false, browserWebgpu := false }

/-- Embedding of the wgpu Backends.BROWSER_WEBGPU singleton flag set. -/
def Backends.BROWSER_WEBGPU : Backends :=
  { vulkan := false, gl := false, metal := false, dx12 := false, browserWebgpu := true }

/-- Embedding of the wgpu Backends.GL singleton flag set. -/
def Backends.GL : Backends :=
  { vulkan := false, gl := true, metal := false, dx12 := false, browserWebgpu := false }

/-- Embedding of the bitwise-or of two Backends sets (the Rust |= operator). -/
def Backends.union (a b : Backends) : Backends :=
  { vulkan := a.vulkan || b.vulkan
    gl := a.gl || b.gl
    metal := a.metal || b.metal
    dx12 := a.dx12 || b.dx12
    browserWebgpu := a.browserWebgpu || b.browserWebgpu }

/-- Embedding of wgpu Backends.is_empty: no flag is set. -/
def Backends.isEmptySet (a : Backends) : Bool :=
  !a.vulkan && !a.gl && !a.metal && !a.dx12 && !a.browserWebgpu

/-- Boolean subset test on Backends flag sets: every flag set in the first
is set in the second. -/
def Backends.subsetOf (a b : Backends) : Bool :=
  (!a.vulkan || b.vulkan) && (!a.gl || b.gl) && (!a.metal || b.metal) &&
    (!a.dx12 || b.dx12) && (!a.browserWebgpu || b.browserWebgpu)

/-- Embedding of the source function selected_backends (lib.rs lines 28-51):
start from the empty set, or in BROWSER_WEBGPU when the "webgpu" feature is
enabled, or in GL when the "webgl2" feature is enabled, or in GL again when
the "cpu" feature is enabled, and fall back to BROWSER_WEBGPU when the
accumulated set is empty. -/
def selected_backends (webgpu webgl2 cpu : Bool) : Backends :=
  let backends := Backends.emptySet
  let backends := if webgpu then backends.union Backends.BROWSER_WEBGPU else backends
  let backends := if webgl2 then backends.union Backends.GL else backends
  let backends := if cpu then backends.union Backends.GL else backends
  if backends.isEmptySet then Backends.BROWSER_WEBGPU else backends

/-- Reference policy written from the specification's words (section 4.1,
"select backend set"): each enabled toggle contributes its flag to a
combined set, the CPU-fallback toggle mapping to the same GL flag as the
GL-fallback toggle, and if none of the toggles are enabled the policy
defaults to the primary-API-only set instead of the empty set. -/
def referencePolicy (webgpu webgl2 cpu : Bool) : Backends :=
  if !webgpu && !webgl2 && !cpu then
    Backends.BROWSER_WEBGPU
  else
    Backends.union (if webgpu then Backends.BROWSER_WEBGPU else Backends.emptySet)
      (Backends.union (if webgl2 then Backends.GL else Backends.emptySet)
        (if cpu then Backends.GL else Backends.emptySet))

/-- Embedding of wgpu InstanceFlags, kept abstract as a bitmask: the
source only ever uses the library's default value, modelled as a
distinguished constant. -/
structure InstanceFlags where
  bits : Nat
deriving DecidableEq, Repr

/-- Default wgpu InstanceFlags value, as produced by InstanceFlags.default
in the source. -/
def InstanceFlags.defaultFlags : InstanceFlags := { bits := 0 }

/-- Embedding of the wgpu Dx12Compiler choice; the source uses the
library default, which is the Fxc variant. -/
inductive Dx12Compiler where
  | Fxc : Dx12Compiler
  | Dxc : String → String → Dx12Compiler
deriving DecidableEq, Repr

/-- Default wgpu Dx12Compiler value (Fxc), as produced by
Dx12Compiler.default in the source. -/
def Dx12Compiler.defaultCompiler : Dx12Compiler := Dx12Compiler.Fxc

/-- Embedding of the wgpu InstanceDescriptor record passed to
Instance.new in lib.rs lines 57-61. -/
structure InstanceDescriptor where
  backends : Backends
  flags : InstanceFlags
  dx12_shader_compiler : Dx12Compiler
deriving DecidableEq, Repr

/-- Embedding of a wgpu Instance: it is fully determined by the
descriptor it was created from. -/
structure Instance where
  descriptor : InstanceDescriptor
deriving DecidableEq, Repr

/-- Embedding of wgpu Instance.new: wrap the descriptor. -/
def Instance.new (d : InstanceDescriptor) : Instance := { descriptor := d }

/-- Embedding of the wgpu PowerPreference enum; the source's None variant
is rendered NoPreference because None is taken in Lean. -/
inductive PowerPreference where
  | NoPreference : PowerPreference
  | LowPower : PowerPreference
  | HighPerformance : PowerPreference
deriving DecidableEq, Repr

/-- Embedding of a presentation surface handle; the source never builds
one (it always passes compatible_surface = None), so one opaque-looking
constructor with a tag suffices. -/
structure Surface where
  tag : Nat
deriving DecidableEq, Repr

/-- Embedding of the wgpu RequestAdapterOptions record built in lib.rs
lines 64-68. -/
structure RequestAdapterOptions where
  power_preference : PowerPreference
  compatible_surface : Option Surface
  force_fallback_adapter : Bool
deriving DecidableEq, Repr

/-- Embedding of the wgpu Backend enum reported in AdapterInfo. -/
inductive Backend where
  | Empty : Backend
  | Vulkan : Backend
  | Metal : Backend
  | Dx12 : Backend
  | Gl : Backend
  | BrowserWebGpu : Backend
deriving DecidableEq, Repr

/-- Rust Debug formatting of the Backend enum: the derived Debug
implementation prints the variant name. -/
def Backend.debugFormat : Backend → String
  | Backend.Empty => "Empty"
  | Backend.Vulkan => "Vulkan"
  | Backend.Metal => "Metal"
  | Backend.Dx12 => "Dx12"
  | Backend.Gl => "Gl"
  | Backend.BrowserWebGpu => "BrowserWebGpu"

/-- Embedding of the wgpu Features bitflags set, as the list of names of
the flags that are set. -/
structure Features where
  names : List String
deriving DecidableEq, Repr

/-- Rust Debug formatting of the Features bitflags value: the flag names
joined with a pipe separator inside a Features wrapper, or a hexadecimal
zero when no flag is set. -/
def Features.debugFormat (f : Features) : String :=
  "Features(" ++ (if f.names.isEmpty then "0x0" else String.intercalate " | " f.names) ++ ")"

/-- Embedding of wgpu AdapterInfo, restricted to the two fields the
source reads: the human-readable adapter name and the backend kind. -/
structure AdapterInfo where
  name : String
  backend : Backend
deriving DecidableEq, Repr

/-- Embedding of a wgpu Adapter: the info record returned by get_info and
the feature set returned by the features method. -/
structure Adapter where
  info : AdapterInfo
  features : Features
deriving DecidableEq, Repr

/-- Embedding of wgpu Adapter.get_info. -/
def Adapter.get_info (a : Adapter) : AdapterInfo := a.info

/-- Embedding of the platform behind Instance.request_adapter: given the
constructed instance and the request options it yields an adapter or
nothing.  The crate itself contains no such code; the host environment
supplies it. -/
structure Host where
  request_adapter : Instance → RequestAdapterOptions → Option Adapter

/-- Embedding of the JsValue error type as produced by JsValue.from_str
in the source; only string-carrying values occur. -/
inductive JsValue where
  | str : String → JsValue
deriving DecidableEq, Repr

/-- Embedding of wasm_bindgen JsValue.from_str. -/
def JsValue.from_str (s : String) : JsValue := JsValue.str s

/-- Embedding of the RendererInfo struct (lib.rs lines 4-8): three owned
strings. -/
structure RendererInfo where
  backend : String
  adapter_name : String
  features : String
deriving DecidableEq, Repr

/-- Rust String.clone: produces an equal string. -/
def cloneString (s : String) : String := s

/-- Embedding of the RendererInfo backend getter (lib.rs lines 12-15):
it clones the stored string and, taking the receiver by shared reference,
returns the receiver's state unchanged (modelled as the second component). -/
def RendererInfo.backendGetter (self : RendererInfo) : String × RendererInfo :=
  (cloneString self.backend, self)

/-- Embedding of the RendererInfo adapter_name getter (lib.rs lines 17-20). -/
def RendererInfo.adapterNameGetter (self : RendererInfo) : String × RendererInfo :=
  (cloneString self.adapter_name, self)

/-- Embedding of the RendererInfo features getter (lib.rs lines 22-25). -/
def RendererInfo.featuresGetter (self : RendererInfo) : String × RendererInfo :=
  (cloneString self.features, self)

/-- Embedding of Option.ok_or_else as used on the request_adapter result
in lib.rs line 70. -/
def okOrElse (o : Option α) (e : Unit → β) : Except β α :=
  match o with
  | none => Except.error (e ())
  | some a => Except.ok a

/-- Embedding of initialize_renderer (lib.rs lines 54-80): compute the
backend set, build the instance from a descriptor with that set and the
library defaults, request an adapter with high-performance power
preference, no compatible surface and no forced fallback, fail with a
fixed message when the host yields none, and otherwise package the Debug
string of the backend kind, the adapter name and the Debug string of the
feature set into a RendererInfo.  The await point is pure in this
embedding: the host function stands for the resolved platform response. -/
def initialize_renderer (host : Host) (webgpu webgl2 cpu : Bool) :
    Except JsValue RendererInfo :=
  let backends := selected_backends webgpu webgl2 cpu
  let inst := Instance.new
    { backends := backends
      flags := InstanceFlags.defaultFlags
      dx12_shader_compiler := Dx12Compiler.defaultCompiler }
  match okOrElse
      (host.request_adapter inst
        { power_preference := PowerPreference.HighPerformance
          compatible_surface := none
          force_fallback_adapter := false })
      (fun _ => JsValue.from_str "No compatible WebGPU adapter found") with
  | Except.error e => Except.error e
  | Except.ok adapter =>
    let info := adapter.get_info
    let features := Features.debugFormat adapter.features
    Except.ok
      { backend := Backend.debugFormat info.backend
        adapter_name := info.name
        features := features }

/-- The instance built by initialize_renderer for a given toggle
combination (stated separately so claims can refer to the exact point at
which the host is queried). -/
def rendererInstance (webgpu webgl2 cpu : Bool) : Instance :=
  Instance.new
    { backends := selected_backends webgpu webgl2 cpu
      flags := InstanceFlags.defaultFlags
      dx12_shader_compiler := Dx12Compiler.defaultCompiler }

/-- The adapter-request options built by initialize_renderer. -/
def rendererOptions : RequestAdapterOptions :=
  { power_preference := PowerPreference.HighPerformance
    compatible_surface := none
    force_fallback_adapter := false }

/-- Renderer initialisation written from the specification's words
(section 4.1, steps a-e): compute the backend set by the reference
policy, construct an instance restricted to that set with default flags
and default shader strategy, request an adapter with high-performance
preference, no surface and no forced fallback, and on success package
the formatted backend kind, the reported name and the formatted feature
set; on absence of an adapter fail with the fixed message. -/
def initializeRendererSpec (host : Host) (webgpu webgl2 cpu : Bool) :
    Except JsValue RendererInfo :=
  match host.request_adapter
      (Instance.new
        { backends := referencePolicy webgpu webgl2 cpu
          flags := InstanceFlags.defaultFlags
          dx12_shader_compiler := Dx12Compiler.defaultCompiler })
      { power_preference := PowerPreference.HighPerformance
        compatible_surface := none
        force_fallback_adapter := false } with
  | none => Except.error (JsValue.from_str "No compatible WebGPU adapter found")
  | some adapter =>
    Except.ok
      { backend := Backend.debugFormat adapter.info.backend
        adapter_name := adapter.info.name
        features := Features.debugFormat adapter.features }

/-- Host that exposes no adapter at all. -/
def noAdapterHost : Host := { request_adapter := fun _ _ => none }

/-- Host exposing one GL adapter named SoftGPU v1 with one feature flag,
as in the specification's section 8 scenario. -/
def softGpuHost : Host :=
  { request_adapter := fun _ _ =>
      some { info := { name := "SoftGPU v1", backend := Backend.Gl }
             features := { names := ["TEXTURE_COMPRESSION"] } } }

/-- Host exposing an adapter whose platform-reported name is the empty
string. -/
def emptyNameHost : Host :=
  { request_adapter := fun _ _ =>
      some { info := { name := "", backend := Backend.Gl }
             features := { names := [] } } }

end QuickfixRenderer

namespace QuickfixRenderer

/-- C1: the backend-set selection function equals the reference policy on
all eight toggle combinations, and with all toggles disabled it returns
exactly the primary-API-only set BROWSER_WEBGPU. -/
theorem selected_backends_matches_reference_policy :
    (∀ webgpu webgl2 cpu : Bool,
        selected_backends webgpu webgl2 cpu = referencePolicy webgpu webgl2 cpu) ∧
      selected_backends false false false = Backends.BROWSER_WEBGPU := by
  constructor
  · decide
  · decide

/-- C4: for all eight combinations of the three compile-time toggles the
computed backend set is non-empty. -/
theorem selected_backends_nonempty :
    ∀ webgpu webgl2 cpu : Bool,
      (selected_backends webgpu webgl2 cpu).isEmptySet = false := by
  decide

/-- C5: the cpu toggle is behaviorally equivalent to the webgl2 toggle:
for every setting of the webgpu toggle, enabling only cpu yields the same
set as enabling only webgl2, and enabling both yields that same set. -/
theorem cpu_toggle_equivalent_to_webgl2_toggle :
    ∀ webgpu : Bool,
      selected_backends webgpu false true = selected_backends webgpu true false ∧
        selected_backends webgpu true true = selected_backends webgpu true false := by
  decide

/-- Unfolding lemma: initialize_renderer is the case split on the single
host query at rendererInstance and rendererOptions. -/
theorem initialize_renderer_eq_match (host : Host) (webgpu webgl2 cpu : Bool) :
    initialize_renderer host webgpu webgl2 cpu =
      match host.request_adapter (rendererInstance webgpu webgl2 cpu) rendererOptions with
      | none => Except.error (JsValue.from_str "No compatible WebGPU adapter found")
      | some adapter =>
        Except.ok
          { backend := Backend.debugFormat adapter.info.backend
            adapter_name := adapter.info.name
            features := Features.debugFormat adapter.features } := by
  cases h : host.request_adapter (rendererInstance webgpu webgl2 cpu) rendererOptions with
  | none =>
    unfold rendererInstance rendererOptions Instance.new at h
    simp [initialize_renderer, okOrElse, Instance.new, Adapter.get_info, h]
  | some adapter =>
    unfold rendererInstance rendererOptions Instance.new at h
    simp [initialize_renderer, okOrElse, Instance.new, Adapter.get_info, h]

/-- Debug formatting of a Backend value is never the empty string. -/
theorem backendDebugFormat_ne_empty (b : Backend) : Backend.debugFormat b ≠ "" := by
  cases b <;> decide

/-- Debug formatting of a Features value is never the empty string. -/
theorem featuresDebugFormat_ne_empty (f : Features) : Features.debugFormat f ≠ "" := by
  intro h
  have h2 := congrArg String.length h
  simp [Features.debugFormat, String.length_append] at h2
  exact absurd h2.1.1 (by decide)

/-- C2 counterexample: on a host whose only adapter reports the empty
string as its name, initialize_renderer succeeds and the adapter_name
field of the produced RendererInfo is empty, contradicting the claim
that every successful execution has three non-empty fields. -/
theorem initialize_renderer_empty_adapter_name_cex :
    initialize_renderer emptyNameHost true false false =
        Except.ok { backend := "Gl", adapter_name := "", features := "Features(0x0)" } ∧
      (Except.toOption (initialize_renderer emptyNameHost true false false)).map
          (fun info => decide (info.adapter_name = "")) = some true := by
  exact ⟨rfl, rfl⟩

/-- C2, amended: for every execution in which initialize_renderer
succeeds, the backend and features fields of the returned RendererInfo
are non-empty, and the adapter_name field equals the name the host
reported for the granted adapter (so it is non-empty exactly when the
host reports a non-empty name); an execution that fails produces an
error value and no RendererInfo. -/
theorem initialize_renderer_success_fields (host : Host) (webgpu webgl2 cpu : Bool)
    (info : RendererInfo)
    (h : initialize_renderer host webgpu webgl2 cpu = Except.ok info) :
    info.backend ≠ "" ∧ info.features ≠ "" ∧
      ∃ a, host.request_adapter (rendererInstance webgpu webgl2 cpu) rendererOptions = some a ∧
        info.adapter_name = a.info.name := by
  rw [initialize_renderer_eq_match] at h
  cases hr : host.request_adapter (rendererInstance webgpu webgl2 cpu) rendererOptions with
  | none => rw [hr] at h; exact absurd h (by simp)
  | some adapter =>
    rw [hr] at h
    have hinfo : info =
        { backend := Backend.debugFormat adapter.info.backend
          adapter_name := adapter.info.name
          features := Features.debugFormat adapter.features } := by
      exact (Except.ok.inj h).symm
    subst hinfo
    exact ⟨backendDebugFormat_ne_empty adapter.info.backend,
      featuresDebugFormat_ne_empty adapter.features, adapter, rfl, rfl⟩

/-- Witness for the amended C2 at the SoftGPU host with only the
GL-fallback toggle enabled. -/
theorem initialize_renderer_success_fields_witness :
    ("Gl" : String) ≠ "" ∧ ("Features(TEXTURE_COMPRESSION)" : String) ≠ "" ∧
      ∃ a, softGpuHost.request_adapter (rendererInstance false true false) rendererOptions = some a ∧
        ("SoftGPU v1" : String) = a.info.name :=
  initialize_renderer_success_fields softGpuHost false true false
    { backend := "Gl", adapter_name := "SoftGPU v1", features := "Features(TEXTURE_COMPRESSION)" }
    rfl

/-- C3: initialize_renderer fails exactly when the single host query
yields no adapter; every failure carries the one fixed error value; and
the whole result depends only on the host's answer at the one queried
instance-and-options point, so no retry against any other backend set
can occur. -/
theorem initialize_renderer_error_characterisation (host : Host) (webgpu webgl2 cpu : Bool) :
    ((initialize_renderer host webgpu webgl2 cpu =
          Except.error (JsValue.from_str "No compatible WebGPU adapter found")) ↔
        host.request_adapter (rendererInstance webgpu webgl2 cpu) rendererOptions = none) ∧
      (∀ e, initialize_renderer host webgpu webgl2 cpu = Except.error e →
        e = JsValue.from_str "No compatible WebGPU adapter found") ∧
      ∀ host2 : Host,
        host2.request_adapter (rendererInstance webgpu webgl2 cpu) rendererOptions =
            host.request_adapter (rendererInstance webgpu webgl2 cpu) rendererOptions →
          initialize_renderer host2 webgpu webgl2 cpu = initialize_renderer host webgpu webgl2 cpu := by
  refine ⟨?_, ?_, ?_⟩
  · rw [initialize_renderer_eq_match]
    cases hr : host.request_adapter (rendererInstance webgpu webgl2 cpu) rendererOptions with
    | none => simp
    | some adapter => simp
  · intro e he
    rw [initialize_renderer_eq_match] at he
    cases hr : host.request_adapter (rendererInstance webgpu webgl2 cpu) rendererOptions with
    | none =>
      rw [hr] at he
      exact (Except.error.inj he).symm
    | some adapter => rw [hr] at he; exact absurd he (by simp)
  · intro host2 hsame
    rw [initialize_renderer_eq_match, initialize_renderer_eq_match, hsame]

/-- Witness for C3 at the adapterless host: the error path is reached
with the fixed message. -/
theorem initialize_renderer_error_characterisation_witness :
    initialize_renderer noAdapterHost true true true =
      Except.error (JsValue.from_str "No compatible WebGPU adapter found") :=
  (initialize_renderer_error_characterisation noAdapterHost true true true).1.mpr rfl

/-- C6: initialize_renderer coincides, for every host and every toggle
combination, with the specification's step-by-step description: instance
restricted to exactly the computed backend set with default flags and
default shader-compiler strategy, adapter requested with
high-performance power preference, no compatible surface and
force_fallback_adapter false. -/
theorem initialize_renderer_refines_spec (host : Host) (webgpu webgl2 cpu : Bool) :
    initialize_renderer host webgpu webgl2 cpu = initializeRendererSpec host webgpu webgl2 cpu := by
  have hb : ∀ a b c : Bool, selected_backends a b c = referencePolicy a b c := by decide
  rw [initialize_renderer_eq_match]
  unfold initializeRendererSpec rendererInstance rendererOptions
  rw [hb webgpu webgl2 cpu]

/-- C7: two runs with identical toggles on an unchanged host (the
platform answers every query identically in both runs) that both succeed
produce descriptors with equal backend strings and equal adapter_name
strings. -/
theorem initialize_renderer_deterministic (host1 host2 : Host) (webgpu webgl2 cpu : Bool)
    (info1 info2 : RendererInfo)
    (hhost : ∀ i o, host1.request_adapter i o = host2.request_adapter i o)
    (h1 : initialize_renderer host1 webgpu webgl2 cpu = Except.ok info1)
    (h2 : initialize_renderer host2 webgpu webgl2 cpu = Except.ok info2) :
    info1.backend = info2.backend ∧ info1.adapter_name = info2.adapter_name := by
  rw [initialize_renderer_eq_match] at h1 h2
  rw [hhost] at h1
  cases hr : host2.request_adapter (rendererInstance webgpu webgl2 cpu) rendererOptions with
  | none => rw [hr] at h1; exact absurd h1 (by simp)
  | some adapter =>
    rw [hr] at h1 h2
    have e1 := (Except.ok.inj h1).symm
    have e2 := (Except.ok.inj h2).symm
    subst e1; subst e2
    exact ⟨rfl, rfl⟩

/-- Witness for C7: two runs against the SoftGPU host with the
GL-fallback toggle agree on backend and adapter_name. -/
theorem initialize_renderer_deterministic_witness :
    ({ backend := "Gl", adapter_name := "SoftGPU v1",
        features := "Features(TEXTURE_COMPRESSION)" } : RendererInfo).backend =
        ({ backend := "Gl", adapter_name := "SoftGPU v1",
            features := "Features(TEXTURE_COMPRESSION)" } : RendererInfo).backend ∧
      ({ backend := "Gl", adapter_name := "SoftGPU v1",
          features := "Features(TEXTURE_COMPRESSION)" } : RendererInfo).adapter_name =
        ({ backend := "Gl", adapter_name := "SoftGPU v1",
            features := "Features(TEXTURE_COMPRESSION)" } : RendererInfo).adapter_name :=
  initialize_renderer_deterministic softGpuHost softGpuHost false true false
    { backend := "Gl", adapter_name := "SoftGPU v1", features := "Features(TEXTURE_COMPRESSION)" }
    { backend := "Gl", adapter_name := "SoftGPU v1", features := "Features(TEXTURE_COMPRESSION)" }
    (fun _ _ => rfl) rfl rfl

/-- C8: each RendererInfo getter returns a string equal to the stored
field, leaves the receiver unchanged, and a repeated call on the
returned receiver yields an equal string. -/
theorem rendererInfo_getters_readonly (r : RendererInfo) :
    (r.backendGetter.1 = r.backend ∧ r.backendGetter.2 = r ∧
        (r.backendGetter.2.backendGetter).1 = r.backendGetter.1) ∧
      (r.adapterNameGetter.1 = r.adapter_name ∧ r.adapterNameGetter.2 = r ∧
        (r.adapterNameGetter.2.adapterNameGetter).1 = r.adapterNameGetter.1) ∧
      (r.featuresGetter.1 = r.features ∧ r.featuresGetter.2 = r ∧
        (r.featuresGetter.2.featuresGetter).1 = r.featuresGetter.1) :=
  ⟨⟨rfl, rfl, rfl⟩, ⟨rfl, rfl, rfl⟩, ⟨rfl, rfl, rfl⟩⟩

/-- C10: every failing execution of initialize_renderer carries exactly
the string No compatible WebGPU adapter found, whatever the toggle
combination. -/
theorem initialize_renderer_fixed_error_message (host : Host) (webgpu webgl2 cpu : Bool)
    (e : JsValue) (h : initialize_renderer host webgpu webgl2 cpu = Except.error e) :
    e = JsValue.str "No compatible WebGPU adapter found" := by
  rw [initialize_renderer_eq_match] at h
  cases hr : host.request_adapter (rendererInstance webgpu webgl2 cpu) rendererOptions with
  | none =>
    rw [hr] at h
    exact (Except.error.inj h).symm
  | some adapter => rw [hr] at h; exact absurd h (by simp)

/-- Witness for C10 in a GL-only build (only the webgl2 toggle enabled)
against the adapterless host. -/
theorem initialize_renderer_fixed_error_message_witness :
    JsValue.str "No compatible WebGPU adapter found" =
      JsValue.str "No compatible WebGPU adapter found" :=
  initialize_renderer_fixed_error_message noAdapterHost false true false
    (JsValue.str "No compatible WebGPU adapter found") rfl

/-- C9: for every combination of the three toggles the selected backend
set is a subset of the union of BROWSER_WEBGPU and GL; in particular no
native flag (Vulkan, Metal, DX12) is ever requested. -/
theorem selected_backends_subset_browser_flags :
    ∀ webgpu webgl2 cpu : Bool,
      (selected_backends webgpu webgl2 cpu).subsetOf
          (Backends.union Backends.BROWSER_WEBGPU Backends.GL) = true ∧
        (selected_backends webgpu webgl2 cpu).vulkan = false ∧
        (selected_backends webgpu webgl2 cpu).metal = false ∧
        (selected_backends webgpu webgl2 cpu).dx12 = false := by
  decide

end QuickfixRenderer
